import Mathlib

/-!
Shallow embedding of the promproxy adaptation layer
(`pkg/proxyquerier/querier.go` and `pkg/promclient/debug.go`).

Modelling conventions:
* `time.Time` is modelled as `Int` nanoseconds (`GoTime`); `model.Time`
  (milliseconds) as `Int` (`ModelTime`); `model.SampleValue` as `Int`
  (the layer never performs float arithmetic, it only zero-initializes
  and passes values through).
* A Go `error` value is the inductive `GoError`: either a base error or
  a `pkg/errors`-style wrapper carrying a message and a cause.
* Go functions returning `(v, warnings, err)` are modelled as triples
  with `Option GoError` for the error slot (`none` = nil error).
* The remote client (`promclient.API`) is a record of response
  functions.  The querier's `Select` additionally returns the list of
  remote calls it performed (`RemoteCall`), so that theorems can speak
  about which arguments reached the remote client.
* Go `nil` slices returned explicitly by the querier on error paths are
  modelled with `Option` on the corresponding result component.
-/

/-- `context.Context`: carries only cancellation, never inspected here. -/
abbrev Context := Unit

/-- `time.Time`, as absolute nanoseconds. -/
abbrev GoTime := Int

/-- `model.Time`: milliseconds since epoch. -/
abbrev ModelTime := Int

/-- `model.SampleValue` (float64 in Go); only the zero value and
pass-through are used by this layer, so `Int` is a faithful carrier. -/
abbrev SampleValue := Int

/-- `model.LabelSet` / `model.Metric`: a label-name-to-value mapping,
modelled as an association list. -/
abbrev LabelSet := List (String × String)

/-- Modelled from the spec: `prometheus/pkg/timestamp.Time` converts a
millisecond timestamp to a `time.Time`; `time.Unix(ms/1000, (ms%1000)*1e6)`
is exactly `ms * 1e6` nanoseconds. -/
def timestampTime (ms : ModelTime) : GoTime := ms * 1000000

/-- A Go error value: `base msg` is a plain error, `wrapped msg cause`
is a `github.com/pkg/errors` contextual wrapper around a cause. -/
inductive GoError where
  | base (msg : String) : GoError
  | wrapped (msg : String) (err : GoError) : GoError
deriving DecidableEq

/-- Modelled from the spec: `errors.Cause` of `github.com/pkg/errors`
(the ErrorBridge of spec section 4.4): follow the cause chain down to the
innermost root error, discarding every wrapping layer. -/
def errorsCause : GoError → GoError
  | GoError.base msg => GoError.base msg
  | GoError.wrapped _ err => errorsCause err

/-- `api.Warnings` (`[]string`). -/
abbrev ApiWarnings := List String

/-- `storage.Warnings` (`[]error`). -/
abbrev StorageWarnings := List GoError

/-- Modelled from the spec: `promutil.WarningsConvert` (not under src/),
the WarningsBridge of spec section 4.4: maps each remote warning to the
engine's warning representation element-wise. -/
def WarningsConvert (w : ApiWarnings) : StorageWarnings :=
  w.map GoError.base

/-- `labels.MatchType`: the four matcher operators. -/
inductive MatchType where
  | equal : MatchType
  | notEqual : MatchType
  | regexp : MatchType
  | notRegexp : MatchType
deriving DecidableEq

/-- `labels.Matcher`: (operator, label name, value). -/
structure Matcher where
  mtype : MatchType
  name : String
  value : String
deriving DecidableEq

/-- Modelled from the spec: the operator mapping of section 4.1. -/
def matchTypeString : MatchType → String
  | MatchType.equal => "="
  | MatchType.notEqual => "!="
  | MatchType.regexp => "=~"
  | MatchType.notRegexp => "!~"

/-- Modelled from the spec: embedded quote characters in matcher values
are escaped (section 4.1). -/
def escapeValue (s : String) : String :=
  s.replace "\"" "\\\""

/-- Modelled from the spec: the textual form of one matcher,
`name<op>"value"` (section 4.1). -/
def matcherStr (m : Matcher) : String :=
  m.name ++ matchTypeString m.mtype ++ "\"" ++ escapeValue m.value ++ "\""

/-- Modelled from the spec: the single selector string combining all
matchers with logical AND (section 4.1). -/
def matcherSelector (ms : List Matcher) : String :=
  "\x7b" ++ String.intercalate "," (ms.map matcherStr) ++ "\x7d"

/-- Modelled from the spec: `promutil.MatcherToString` (not under src/),
the MatcherTranslator of section 4.1.  It fails if an operator cannot be
represented; all four operators of `MatchType` are representable, so the
failure branch never fires and the result is always `ok`. -/
def MatcherToString (ms : List Matcher) : Except GoError String :=
  Except.ok (matcherSelector ms)

/-- `model.Sample`: its exact fields are Metric, Value, Timestamp. -/
structure Sample where
  Metric : LabelSet
  Value : SampleValue
  Timestamp : ModelTime
deriving DecidableEq

/-- `model.SampleStream`: a labelset with its ordered points. -/
structure SampleStream where
  Metric : LabelSet
  Values : List (ModelTime × SampleValue)
deriving DecidableEq

/-- `model.Value`: the tagged union of remote result shapes. -/
inductive RemoteValue where
  | vector (samples : List Sample) : RemoteValue
  | matrix (streams : List SampleStream) : RemoteValue
  | scalar (timestamp : ModelTime) (value : SampleValue) : RemoteValue
  | strValue (timestamp : ModelTime) (value : String) : RemoteValue
deriving DecidableEq

/-- `v1.Range` for `QueryRange`. -/
structure VRange where
  Start : GoTime
  End : GoTime
  Step : Int
deriving DecidableEq

/-- `promclient.API`: the consumed remote-client capability set, as a
record of response functions. -/
structure API where
  labelNames : Context → List String × ApiWarnings × Option GoError
  labelValues : Context → String → List String × ApiWarnings × Option GoError
  query : Context → String → GoTime → RemoteValue × ApiWarnings × Option GoError
  queryRange : Context → String → VRange → RemoteValue × ApiWarnings × Option GoError
  series : Context → List String → GoTime → GoTime →
    List LabelSet × ApiWarnings × Option GoError
  getValue : Context → GoTime → GoTime → List Matcher →
    RemoteValue × ApiWarnings × Option GoError

/-- Modelled from the spec: a `promclient.SeriesIterator` (not under
src/), abstracted as the labelset plus the ordered sequence of
(timestamp, value) points the single-pass cursor yields. -/
structure SeriesIterator where
  labels : LabelSet
  points : List (ModelTime × SampleValue)
deriving DecidableEq

/-- Modelled from the spec: `promclient.IteratorsForValue` (not under
src/), the ResultAdapter of section 4.3.  Vector: one iterator per
sample, yielding its single point, except the metadata-path sentinel
(zero timestamp and value), whose iterator is empty.  Matrix: one
iterator per stream, replaying its points in order.  Scalar/String are
not convertible (never reached by this layer's call sites); modelled as
producing no iterators. -/
def IteratorsForValue : RemoteValue → List SeriesIterator
  | RemoteValue.vector samples =>
      samples.map fun s =>
        { labels := s.Metric
          points :=
            if s.Timestamp = (0 : ModelTime) ∧ s.Value = (0 : SampleValue) then []
            else [(s.Timestamp, s.Value)] }
  | RemoteValue.matrix streams =>
      streams.map fun st => { labels := st.Metric, points := st.Values }
  | RemoteValue.scalar _ _ => []
  | RemoteValue.strValue _ _ => []

/-- Modelled from the spec: `proxyquerier.Series` (not under src/),
wrapping one iterator. -/
structure Series where
  iterator : SeriesIterator
deriving DecidableEq

/-- Modelled from the spec: `proxyquerier.SeriesSet` (not under src/),
an ordered collection of Series. -/
structure SeriesSet where
  series : List Series
deriving DecidableEq

/-- Modelled from the spec: `proxyquerier.NewSeriesSet` (not under
src/). -/
def NewSeriesSet (s : List Series) : SeriesSet :=
  { series := s }

/-- `storage.SelectParams`: the optional data-path request window
(millisecond timestamps), with ancillary fields. -/
structure SelectParams where
  Start : ModelTime
  End : ModelTime
  Step : Int
  Func : String
deriving DecidableEq

/-- One remote call performed by `Select`, with the arguments it
carried. -/
inductive RemoteCall where
  | series (sel : List String) (startT : GoTime) (endT : GoTime) : RemoteCall
  | getValue (startT : GoTime) (endT : GoTime)
      (matchers : List Matcher) : RemoteCall
deriving DecidableEq

/-- The list of textual selectors a remote call carried (the `matches`
argument of `API.Series`; empty for a data-path call). -/
def RemoteCall.selectors : RemoteCall → List String
  | RemoteCall.series m _ _ => m
  | RemoteCall.getValue _ _ _ => []

/-- `proxyquerier.ProxyQuerier`: construction-time window, context and
client, all immutable. -/
structure ProxyQuerier where
  Ctx : Context
  Start : GoTime
  End : GoTime
  Client : API

/-- querier.go lines 62-67: the synthesized metadata-path vector: one
`model.Sample` per discovered labelset, only the Metric field set, the
Value and Timestamp fields left at their Go zero values. -/
def synthVector (labelsets : List LabelSet) : List Sample :=
  labelsets.map fun labelset =>
    { Metric := labelset, Value := 0, Timestamp := 0 }

/-- querier.go lines 78-85: the common tail of `Select`: convert the
result value to iterators, wrap each in a `Series`, return the
`SeriesSet` with the converted warnings and a nil error. -/
def finishSelect (result : RemoteValue) (warnings : StorageWarnings)
    (calls : List RemoteCall) :
    (Option SeriesSet × StorageWarnings × Option GoError) × List RemoteCall :=
  let iterators := IteratorsForValue result
  let series := iterators.map fun iterator => Series.mk iterator
  ((some (NewSeriesSet series), warnings, none), calls)

/-- querier.go lines 31-86: `ProxyQuerier.Select`.  With no
`SelectParams` it translates the matchers and calls `Series` over the
querier's construction-time window, synthesizing a sentinel vector;
with `SelectParams` it calls `GetValue` over the request's own window.
Remote errors are returned through `errors.Cause` together with the
converted warnings.  The second component records the remote calls
performed. -/
def ProxyQuerier.Select (h : ProxyQuerier) (selectParams : Option SelectParams)
    (matchers : List Matcher) :
    (Option SeriesSet × StorageWarnings × Option GoError) × List RemoteCall :=
  match selectParams with
  | none =>
    match MatcherToString matchers with
    | Except.error e => ((none, [], some e), [])
    | Except.ok matcherString =>
      let r := h.Client.series h.Ctx [matcherString] h.Start h.End
      let warnings := WarningsConvert r.2.1
      let calls := [RemoteCall.series [matcherString] h.Start h.End]
      match r.2.2 with
      | some e => ((none, warnings, some (errorsCause e)), calls)
      | none => finishSelect (RemoteValue.vector (synthVector r.1)) warnings calls
  | some sp =>
    let r := h.Client.getValue h.Ctx (timestampTime sp.Start)
      (timestampTime sp.End) matchers
    let warnings := WarningsConvert r.2.1
    let calls := [RemoteCall.getValue (timestampTime sp.Start)
      (timestampTime sp.End) matchers]
    match r.2.2 with
    | some e => ((none, warnings, some (errorsCause e)), calls)
    | none => finishSelect r.1 warnings calls

/-- querier.go lines 89-110: `ProxyQuerier.LabelValues`.  On a remote
error it returns a nil result with the converted warnings and the root
cause; on success it converts each value to a string. -/
def ProxyQuerier.LabelValues (h : ProxyQuerier) (name : String) :
    Option (List String) × StorageWarnings × Option GoError :=
  let r := h.Client.labelValues h.Ctx name
  let warnings := WarningsConvert r.2.1
  match r.2.2 with
  | some e => (none, warnings, some (errorsCause e))
  | none => (some (r.1.map fun v => v), warnings, none)

/-- querier.go lines 113-123: `ProxyQuerier.LabelNames`: forwards the
client's value and error unchanged, converting only the warnings. -/
def ProxyQuerier.LabelNames (h : ProxyQuerier) :
    List String × StorageWarnings × Option GoError :=
  let r := h.Client.labelNames h.Ctx
  (r.1, WarningsConvert r.2.1, r.2.2)

/-- querier.go line 127: `Close` is a documented no-op. -/
def ProxyQuerier.Close (_h : ProxyQuerier) : Option GoError := none

/-- logrus's `DebugLevel` (its ordinal; `TraceLevel` is the next one
up). -/
def debugLevel : Nat := 5

/-- One diagnostic record emitted by the decorator: the prefix message,
the operation name, and whether the full payload was included (true
only at trace verbosity). -/
structure LogEntry where
  msg : String
  apiName : String
  verbose : Bool
deriving DecidableEq

/-- debug.go lines 15-18: `promclient.DebugAPI`, wrapping an `API` with
a prefix message. -/
structure DebugAPI where
  api : API
  PrefixMessage : String

/-- The decorator's per-call log pair: one debug record before the
call, then a trace record with the payload when the global verbosity
exceeds debug level, else another debug record. -/
def debugLogs (msg : String) (apiName : String) (level : Nat) : List LogEntry :=
  [{ msg := msg, apiName := apiName, verbose := false },
   if level > debugLevel then { msg := msg, apiName := apiName, verbose := true }
   else { msg := msg, apiName := apiName, verbose := false }]

/-- debug.go lines 21-41: `DebugAPI.LabelNames` forwards to the wrapped
API and logs around the call.  `level` is logrus's global verbosity. -/
def DebugAPI.LabelNames (d : DebugAPI) (level : Nat) (ctx : Context) :
    (List String × ApiWarnings × Option GoError) × List LogEntry :=
  (d.api.labelNames ctx, debugLogs d.PrefixMessage "LabelNames" level)

/-- debug.go lines 44-65: `DebugAPI.LabelValues`. -/
def DebugAPI.LabelValues (d : DebugAPI) (level : Nat) (ctx : Context)
    (label : String) :
    (List String × ApiWarnings × Option GoError) × List LogEntry :=
  (d.api.labelValues ctx label, debugLogs d.PrefixMessage "LabelValues" level)

/-- debug.go lines 68-90: `DebugAPI.Query`. -/
def DebugAPI.Query (d : DebugAPI) (level : Nat) (ctx : Context)
    (query : String) (ts : GoTime) :
    (RemoteValue × ApiWarnings × Option GoError) × List LogEntry :=
  (d.api.query ctx query ts, debugLogs d.PrefixMessage "Query" level)

/-- debug.go lines 93-115: `DebugAPI.QueryRange`. -/
def DebugAPI.QueryRange (d : DebugAPI) (level : Nat) (ctx : Context)
    (query : String) (r : VRange) :
    (RemoteValue × ApiWarnings × Option GoError) × List LogEntry :=
  (d.api.queryRange ctx query r, debugLogs d.PrefixMessage "QueryRange" level)

/-- debug.go lines 118-140: `DebugAPI.Series`. -/
def DebugAPI.Series (d : DebugAPI) (level : Nat) (ctx : Context)
    (sel : List String) (startTime : GoTime) (endTime : GoTime) :
    (List LabelSet × ApiWarnings × Option GoError) × List LogEntry :=
  (d.api.series ctx sel startTime endTime,
   debugLogs d.PrefixMessage "Series" level)

/-- debug.go lines 143-167: `DebugAPI.GetValue`. -/
def DebugAPI.GetValue (d : DebugAPI) (level : Nat) (ctx : Context)
    (startT : GoTime) (endT : GoTime) (matchers : List Matcher) :
    (RemoteValue × ApiWarnings × Option GoError) × List LogEntry :=
  (d.api.getValue ctx startT endT matchers,
   debugLogs d.PrefixMessage "GetValue" level)

/-! Concrete test fixtures used by witness and counterexample
theorems. -/

/-- A root-cause error, as in the spec's ErrorBridge example. -/
def rootE : GoError := GoError.base "E"

/-- A doubly-wrapped error with root cause `rootE`. -/
def doublyWrapped : GoError :=
  GoError.wrapped "outer context" (GoError.wrapped "inner context" rootE)

/-- A client whose every data-carrying operation fails with
`doublyWrapped` while still attaching warnings. -/
def failingClient : API where
  labelNames := fun _ => (["n"], ["w1"], some doublyWrapped)
  labelValues := fun _ _ => (["v"], ["w1"], some doublyWrapped)
  query := fun _ _ _ => (RemoteValue.vector [], [], none)
  queryRange := fun _ _ _ => (RemoteValue.vector [], [], none)
  series := fun _ _ _ _ => ([], ["w1"], some doublyWrapped)
  getValue := fun _ _ _ _ => (RemoteValue.vector [], ["w2"], some doublyWrapped)

/-- A querier over the failing client, window [100, 200]. -/
def failingQuerier : ProxyQuerier :=
  { Ctx := (), Start := 100, End := 200, Client := failingClient }

/-- The spec's series-discovery example labelsets. -/
def discoveredLabelSets : List LabelSet :=
  [[("job", "api"), ("instance", "a")], [("job", "api"), ("instance", "b")]]

/-- A client whose `Series` succeeds with `discoveredLabelSets` and one
warning. -/
def okClient : API where
  labelNames := fun _ => (["job"], [], none)
  labelValues := fun _ _ => (["api"], [], none)
  query := fun _ _ _ => (RemoteValue.vector [], [], none)
  queryRange := fun _ _ _ => (RemoteValue.vector [], [], none)
  series := fun _ _ _ _ => (discoveredLabelSets, ["warnA"], none)
  getValue := fun _ _ _ _ => (RemoteValue.vector [], [], none)

/-- A querier over the succeeding client, window [1000, 2000]. -/
def okQuerier : ProxyQuerier :=
  { Ctx := (), Start := 1000, End := 2000, Client := okClient }

/-- The spec's example matcher `job = "api"`. -/
def jobMatcher : Matcher :=
  { mtype := MatchType.equal, name := "job", value := "api" }

/-- C1: a Select with a present SelectRequest carrying start T1 and end
T2 performs exactly one remote call, the data-path GetValue, and that
call receives exactly T1 as its start and T2 as its end (the request's
own window, converted from milliseconds, never the querier's
construction-time window). -/
theorem select_data_path_uses_request_window (h : ProxyQuerier)
    (sp : SelectParams) (ms : List Matcher) :
    (h.Select (some sp) ms).2 =
      [RemoteCall.getValue (timestampTime sp.Start) (timestampTime sp.End) ms] := by
  rcases hg : h.Client.getValue h.Ctx (timestampTime sp.Start)
      (timestampTime sp.End) ms with ⟨v, w, e⟩
  cases e <;> simp [ProxyQuerier.Select, hg, finishSelect]

/-- C2: a Select with an absent SelectRequest performs exactly one
remote call, the series-discovery call, and that call receives the
querier's fixed construction-time window `h.Start`, `h.End` as its
bounds. -/
theorem select_metadata_path_uses_querier_window (h : ProxyQuerier)
    (ms : List Matcher) :
    (h.Select none ms).2 =
      [RemoteCall.series [matcherSelector ms] h.Start h.End] := by
  rcases hg : h.Client.series h.Ctx [matcherSelector ms] h.Start h.End
    with ⟨v, w, e⟩
  cases e <;> simp [ProxyQuerier.Select, MatcherToString, hg, finishSelect]

/-- C9: on the metadata path the whole matcher list is translated into
one combined selector string and the remote Series call receives a
selector list of length exactly one, containing that string. -/
theorem select_metadata_single_selector (h : ProxyQuerier)
    (ms : List Matcher) :
    ((h.Select none ms).2.map RemoteCall.selectors = [[matcherSelector ms]]) ∧
    ([matcherSelector ms] : List String).length = 1 := by
  refine ⟨?_, rfl⟩
  rcases hg : h.Client.series h.Ctx [matcherSelector ms] h.Start h.End
    with ⟨v, w, e⟩
  cases e <;>
    simp [ProxyQuerier.Select, MatcherToString, hg, finishSelect,
      RemoteCall.selectors]

/-- C7: each DebugAPI operation forwards its inputs unchanged to the
wrapped API and returns exactly the (value, warnings, error) triple the
wrapped API returned, at every verbosity level. -/
theorem debugAPI_transparent :
    ∀ (d : DebugAPI) (level : Nat) (ctx : Context) (label : String)
      (q : String) (ts : GoTime) (r : VRange) (sel : List String)
      (t1 t2 : GoTime) (ms : List Matcher),
      (d.LabelNames level ctx).1 = d.api.labelNames ctx ∧
      (d.LabelValues level ctx label).1 = d.api.labelValues ctx label ∧
      (d.Query level ctx q ts).1 = d.api.query ctx q ts ∧
      (d.QueryRange level ctx q r).1 = d.api.queryRange ctx q r ∧
      (d.Series level ctx sel t1 t2).1 = d.api.series ctx sel t1 t2 ∧
      (d.GetValue level ctx t1 t2 ms).1 = d.api.getValue ctx t1 t2 ms := by
  intros
  exact ⟨rfl, rfl, rfl, rfl, rfl, rfl⟩

/-- C8: the warnings conversion maps each remote warning element-wise,
so output count and order exactly match the input, for every input
list. -/
theorem warningsConvert_preserves_count_order (w : ApiWarnings) :
    (WarningsConvert w).length = w.length ∧
    ∀ i : Nat, (WarningsConvert w)[i]? = w[i]?.map GoError.base := by
  constructor
  · simp [WarningsConvert]
  · intro i
    simp [WarningsConvert, List.getElem?_map]

/-- C10: every sample of the synthesized metadata-path vector has its
Metric field set to the corresponding discovered labelset (in order)
and its Value and Timestamp fields left at zero; `Sample` has no other
field. -/
theorem synthVector_sentinel_samples (labelsets : List LabelSet) :
    (synthVector labelsets).length = labelsets.length ∧
    ∀ i : Nat, (synthVector labelsets)[i]? =
      labelsets[i]?.map fun ls =>
        { Metric := ls, Value := 0, Timestamp := 0 } := by
  constructor
  · simp [synthVector]
  · intro i
    simp [synthVector, List.getElem?_map]

/-- C5: a metadata-path Select whose discovery call succeeds returns a
SeriesSet with exactly one Series per discovered labelset, in the order
the remote call returned them, each carrying that labelset with an
empty iterator, plus the converted warnings and no error. -/
theorem select_metadata_success (h : ProxyQuerier) (ms : List Matcher)
    (lss : List LabelSet) (w : ApiWarnings)
    (hc : h.Client.series h.Ctx [matcherSelector ms] h.Start h.End =
      (lss, w, none)) :
    (h.Select none ms).1 =
      (some (NewSeriesSet (lss.map fun ls => Series.mk ⟨ls, []⟩)),
       WarningsConvert w, none) := by
  simp [ProxyQuerier.Select, MatcherToString, hc, finishSelect,
    IteratorsForValue, synthVector, NewSeriesSet]

/-- Witness for C5 at the spec's example: two discovered labelsets give
two Series with those labelsets and empty iterators. -/
theorem select_metadata_success_witness :
    (okQuerier.Select none [jobMatcher]).1 =
      (some (NewSeriesSet (discoveredLabelSets.map fun ls => Series.mk ⟨ls, []⟩)),
       WarningsConvert ["warnA"], none) :=
  select_metadata_success okQuerier [jobMatcher] discoveredLabelSets ["warnA"] rfl

/-- C3: on both Select paths, when the remote call fails with an error
while attaching warnings, Select returns the converted warnings
alongside the error; warnings are never dropped because of an error. -/
theorem select_keeps_warnings_on_error :
    (∀ (h : ProxyQuerier) (ms : List Matcher) (lss : List LabelSet)
       (w : ApiWarnings) (e : GoError),
       h.Client.series h.Ctx [matcherSelector ms] h.Start h.End =
         (lss, w, some e) →
       (h.Select none ms).1 = (none, WarningsConvert w, some (errorsCause e))) ∧
    (∀ (h : ProxyQuerier) (sp : SelectParams) (ms : List Matcher)
       (v : RemoteValue) (w : ApiWarnings) (e : GoError),
       h.Client.getValue h.Ctx (timestampTime sp.Start) (timestampTime sp.End)
         ms = (v, w, some e) →
       (h.Select (some sp) ms).1 =
         (none, WarningsConvert w, some (errorsCause e))) := by
  constructor
  · intro h ms lss w e hc
    simp [ProxyQuerier.Select, MatcherToString, hc]
  · intro h sp ms v w e hc
    simp [ProxyQuerier.Select, hc]

/-- Witness for C3: at the failing client, both paths return the
converted warnings together with the root-cause error. -/
theorem select_keeps_warnings_on_error_witness :
    (failingQuerier.Select none []).1 =
      (none, WarningsConvert ["w1"], some (errorsCause doublyWrapped)) ∧
    (failingQuerier.Select (some { Start := 1, End := 2, Step := 0, Func := "" })
        []).1 =
      (none, WarningsConvert ["w2"], some (errorsCause doublyWrapped)) :=
  ⟨select_keeps_warnings_on_error.1 failingQuerier [] [] ["w1"] doublyWrapped rfl,
   select_keeps_warnings_on_error.2 failingQuerier
     { Start := 1, End := 2, Step := 0, Func := "" } [] (RemoteValue.vector [])
     ["w2"] doublyWrapped rfl⟩

/-- C6: whenever Select returns a non-nil error, the returned SeriesSet
is nil; no partially constructed SeriesSet accompanies an error. -/
theorem select_error_implies_nil_seriesset (h : ProxyQuerier)
    (sp : Option SelectParams) (ms : List Matcher)
    (hs : ((h.Select sp ms).1.2.2).isSome) :
    (h.Select sp ms).1.1 = none := by
  cases sp with
  | none =>
    rcases hg : h.Client.series h.Ctx [matcherSelector ms] h.Start h.End
      with ⟨v, w, e⟩
    cases e with
    | none =>
      exfalso
      simp [ProxyQuerier.Select, MatcherToString, hg, finishSelect] at hs
    | some e => simp [ProxyQuerier.Select, MatcherToString, hg]
  | some sp =>
    rcases hg : h.Client.getValue h.Ctx (timestampTime sp.Start)
        (timestampTime sp.End) ms with ⟨v, w, e⟩
    cases e with
    | none =>
      exfalso
      simp [ProxyQuerier.Select, hg, finishSelect] at hs
    | some e => simp [ProxyQuerier.Select, hg]

/-- Witness for C6: the failing querier's metadata-path Select errors
and indeed carries a nil SeriesSet. -/
theorem select_error_implies_nil_seriesset_witness :
    (failingQuerier.Select none []).1.1 = none :=
  select_error_implies_nil_seriesset failingQuerier none [] (by rfl)

/-- C4 counterexample: at a client whose LabelNames fails with a
doubly-wrapped error of root cause `E`, the querier's LabelNames
returns the wrapped error itself, not the root cause, refuting the
claim that every exposed operation returns the innermost cause. -/
theorem labelNames_returns_wrapped_error :
    (failingQuerier.LabelNames).2.2 = some doublyWrapped ∧
    doublyWrapped ≠ rootE ∧
    errorsCause doublyWrapped = rootE := by
  refine ⟨rfl, ?_, rfl⟩
  decide

/-- C4 amended: Select (both paths) and LabelValues return exactly the
innermost root cause of a wrapped remote error, discarding the wrapping
context; LabelNames forwards the remote error unchanged, without
extracting the root cause. -/
theorem error_unwrap_policy_per_operation :
    (∀ (h : ProxyQuerier) (ms : List Matcher) (lss : List LabelSet)
       (w : ApiWarnings) (e : GoError),
       h.Client.series h.Ctx [matcherSelector ms] h.Start h.End =
         (lss, w, some e) →
       (h.Select none ms).1.2.2 = some (errorsCause e)) ∧
    (∀ (h : ProxyQuerier) (sp : SelectParams) (ms : List Matcher)
       (v : RemoteValue) (w : ApiWarnings) (e : GoError),
       h.Client.getValue h.Ctx (timestampTime sp.Start) (timestampTime sp.End)
         ms = (v, w, some e) →
       (h.Select (some sp) ms).1.2.2 = some (errorsCause e)) ∧
    (∀ (h : ProxyQuerier) (name : String) (v : List String)
       (w : ApiWarnings) (e : GoError),
       h.Client.labelValues h.Ctx name = (v, w, some e) →
       (h.LabelValues name).2.2 = some (errorsCause e)) ∧
    (∀ (h : ProxyQuerier) (v : List String) (w : ApiWarnings)
       (e : Option GoError),
       h.Client.labelNames h.Ctx = (v, w, e) →
       (h.LabelNames).2.2 = e) := by
  refine ⟨?_, ?_, ?_, ?_⟩
  · intro h ms lss w e hc
    simp [ProxyQuerier.Select, MatcherToString, hc]
  · intro h sp ms v w e hc
    simp [ProxyQuerier.Select, hc]
  · intro h name v w e hc
    simp [ProxyQuerier.LabelValues, hc]
  · intro h v w e hc
    simp [ProxyQuerier.LabelNames, hc]

/-- Witness for the amended C4 at the failing client: Select and
LabelValues surface the root cause `E`; LabelNames surfaces the wrapped
error unchanged. -/
theorem error_unwrap_policy_per_operation_witness :
    (failingQuerier.Select none []).1.2.2 = some (errorsCause doublyWrapped) ∧
    (failingQuerier.Select
        (some { Start := 1, End := 2, Step := 0, Func := "" }) []).1.2.2 =
      some (errorsCause doublyWrapped) ∧
    (failingQuerier.LabelValues "job").2.2 = some (errorsCause doublyWrapped) ∧
    (failingQuerier.LabelNames).2.2 = some doublyWrapped :=
  ⟨error_unwrap_policy_per_operation.1 failingQuerier [] [] ["w1"]
     doublyWrapped rfl,
   error_unwrap_policy_per_operation.2.1 failingQuerier
     { Start := 1, End := 2, Step := 0, Func := "" } [] (RemoteValue.vector [])
     ["w2"] doublyWrapped rfl,
   error_unwrap_policy_per_operation.2.2.1 failingQuerier "job" ["v"] ["w1"]
     doublyWrapped rfl,
   error_unwrap_policy_per_operation.2.2.2 failingQuerier ["n"] ["w1"]
     (some doublyWrapped) rfl⟩
